import Mathlib

/-
  Verification development for the workai-backend Smart Pricing Band Engine.

  The definitions below are shallow embeddings of the JavaScript source:
  - `getApproxHours`, `looksLikeTinyJob`, `buildSmartBand` from the
    tightened server revision (src/unnamed/part_001),
  - the note-refinement step of its upload handler (`refineNotes`),
  - the upload route of src/routes/jobs.js (`fallbackBand`, `step2Band`,
    `step2Upsell`, `tuneStep`, `shieldStep`, `computeJob`).

  JavaScript numbers are modelled as exact rationals (ℚ); `Math.round` is
  round-half-toward-positive-infinity (`jsRoundQ`).  `null`/`undefined`/`NaN`
  inputs are modelled with `Option`.  Timestamps (`Date.now()`,
  `createdAt`) and file storage are outside the modelled data.
-/

set_option maxRecDepth 2000

namespace WorkAI

/-- JavaScript `Math.round`: rounds half toward positive infinity. -/
def jsRoundQ (x : ℚ) : ℚ := ((Rat.floor (x + 1/2) : ℤ) : ℚ)

/-- ASCII lower-casing, as `String.prototype.toLowerCase` acts on the
    characters appearing in this code base. -/
def jsToLower (c : Char) : Char :=
  if 'A' ≤ c ∧ c ≤ 'Z' then Char.ofNat (c.toNat + 32) else c

/-- Whitespace characters recognised by `String.prototype.trim` and `\s`
    (the subset that can occur in the modelled inputs). -/
def isSpaceC (c : Char) : Bool :=
  c = ' ' || c = '\t' || c = '\n' || c = '\r' || c = '\x0b' || c = '\x0c'

def isDigitC (c : Char) : Bool := '0' ≤ c && c ≤ '9'

def isAlphaC (c : Char) : Bool :=
  ('a' ≤ c && c ≤ 'z') || ('A' ≤ c && c ≤ 'Z')

/-- Word characters for the regex `\b` boundary test. -/
def isWordC (c : Char) : Bool := isDigitC c || isAlphaC c || c = '_'

/-- JavaScript `String.prototype.trim` on a character list. -/
def trimChars (l : List Char) : List Char :=
  ((l.dropWhile isSpaceC).reverse.dropWhile isSpaceC).reverse

/-- JavaScript `String.prototype.trim`. -/
def jsTrim (s : String) : String := ⟨trimChars s.data⟩

/-- Value of a digit run, e.g. `['3','0'] ↦ 30`. -/
def digitsVal (l : List Char) : ℕ :=
  l.foldl (fun a c => 10 * a + (c.toNat - 48)) 0

/-- If `pre` is a leading segment of `l`, return the remainder. -/
def stripPrefixC : List Char → List Char → Option (List Char)
  | [], l => some l
  | _, [] => none
  | a :: as, b :: bs => if a = b then stripPrefixC as bs else none

/-- Regex `\b` after a unit word: the next character is not a word
    character (or the string ends). -/
def wordBoundary : List Char → Bool
  | [] => true
  | c :: _ => !(isWordC c)

/-- One of the unit alternatives matches here, followed by `\b`.  Which
    alternative matches is irrelevant: the captured number is group 1. -/
def unitOK (units : List (List Char)) (l : List Char) : Bool :=
  units.any fun u =>
    match stripPrefixC u l with
    | some rest => wordBoundary rest
    | none => false

/-- Attempt the pattern `(\d+(\.\d+)?)\s*(unit)\b` anchored at the start of
    `l`; on success return the parsed quantity (regex group 1). -/
def numUnitAt (units : List (List Char)) (l : List Char) : Option ℚ :=
  let intDigits := l.takeWhile isDigitC
  let r1 := l.dropWhile isDigitC
  if intDigits.isEmpty then none
  else
    let intPart : ℚ := (digitsVal intDigits : ℕ)
    let valRest : ℚ × List Char :=
      match r1 with
      | '.' :: r =>
        let fs := r.takeWhile isDigitC
        if fs.isEmpty then (intPart, r1)
        else (intPart + (digitsVal fs : ℕ) / ((10 : ℚ) ^ fs.length), r.dropWhile isDigitC)
      | _ => (intPart, r1)
    let r3 := valRest.2.dropWhile isSpaceC
    if unitOK units r3 then some valRest.1 else none

/-- Leftmost match of `(\d+(\.\d+)?)\s*(unit)\b`, as JavaScript
    `String.prototype.match` finds it. -/
def findNumUnit (units : List (List Char)) : List Char → Option ℚ
  | [] => none
  | c :: rest =>
    match numUnitAt units (c :: rest) with
    | some v => some v
    | none => findNumUnit units rest

def hrUnits : List (List Char) := ["hr".data, "hrs".data, "hour".data, "hours".data]

def minUnits : List (List Char) := ["min".data, "mins".data, "minute".data, "minutes".data]

/-- `getApproxHours` (src/unnamed/part_001 lines 114-133): infer a duration
    from free text; hours are returned directly, minutes divided by 60 when
    positive; otherwise `null`. -/
def getApproxHours (desc : String) : Option ℚ :=
  let s := desc.data.map jsToLower
  match findNumUnit hrUnits s with
  | some v => some v
  | none =>
    match findNumUnit minUnits s with
    | some m => if 0 < m then some (m / 60) else none
    | none => none

/-- Substring test (case-sensitive; callers lower-case first). -/
def containsSub (needle : List Char) : List Char → Bool
  | [] => needle.isEmpty
  | c :: r => (stripPrefixC needle (c :: r)).isSome || containsSub needle r

/-- `looksLikeTinyJob` (src/unnamed/part_001 lines 136-151): fixed lexicon of
    tiny-job markers, matched case-insensitively as substrings. -/
def looksLikeTinyJob (desc : String) : Bool :=
  let s := desc.data.map jsToLower
  containsSub "1 min".data s ||
  containsSub "1-min".data s ||
  containsSub "one minute".data s ||
  containsSub "5 min".data s ||
  containsSub "5-min".data s ||
  containsSub "five minutes".data s ||
  containsSub "tiny".data s ||
  containsSub "quick touch".data s ||
  containsSub "quick stop".data s ||
  containsSub "1 hr".data s ||
  containsSub "1hr".data s

/-- Result record of `buildSmartBand` (src/unnamed/part_001 lines 224-233). -/
structure Band01 where
  price : ℚ
  scopeType : String
  description : String
  aiLow : ℚ
  aiHigh : ℚ
  upsellPotential : ℚ
  notes : String
  hourly : Option ℚ
deriving DecidableEq, Repr

def noteZero : String :=
  "No price provided. Use real jobs with real numbers to get a useful band."

def noteBase : String :=
  "You’re in a workable lane. If your communication and finish are strong, you can test the upper side of this band."

def noteTiny : String :=
  "This looks like a very small scope at a high rate. You’re already at the ceiling; only hold this if your speed, reliability, and presentation clearly back it up. No upsell recommended."

def noteHourly : String :=
  "This implied hourly rate is extremely high for most markets. Treat this as a special-case or adjust toward the lower side of this band if you want to maintain trust."

def noteLargeTicket : String :=
  "For higher-ticket work, stay inside this band unless you’re clearly offering premium design, warranty, or speed."

/-- Argument of the `notes.startsWith` test in Case 3 of `buildSmartBand`. -/
def workableStart : String := "You’re in a workable lane"

/-- JavaScript `String.prototype.startsWith`. -/
def strStartsWith (s pre : String) : Bool := (stripPrefixC pre.data s.data).isSome

/-- Truthiness of `hours && hours <= 0.25` (hours may be `null`). -/
def hourTiny : Option ℚ → Prop
  | some h => h ≠ 0 ∧ h ≤ 0.25
  | none => False

instance (o : Option ℚ) : Decidable (hourTiny o) :=
  match o with
  | some h => inferInstanceAs (Decidable (h ≠ 0 ∧ h ≤ 0.25))
  | none => inferInstanceAs (Decidable False)

/-- Truthiness of `hourly && hourly > 1000` (hourly may be `null`). -/
def hourlyHigh : Option ℚ → Prop
  | some r => r ≠ 0 ∧ 1000 < r
  | none => False

instance (o : Option ℚ) : Decidable (hourlyHigh o) :=
  match o with
  | some r => inferInstanceAs (Decidable (r ≠ 0 ∧ 1000 < r))
  | none => inferInstanceAs (Decidable False)

/-- Truthiness of `!hourly || hourly <= 1000`. -/
def hourlyModest : Option ℚ → Prop
  | some r => r = 0 ∨ r ≤ 1000
  | none => True

instance (o : Option ℚ) : Decidable (hourlyModest o) :=
  match o with
  | some r => inferInstanceAs (Decidable (r = 0 ∨ r ≤ 1000))
  | none => inferInstanceAs (Decidable True)

/-- `hours && hours > 0 ? price / hours : null` in `buildSmartBand`. -/
def impliedHourly (price : ℚ) (hours : Option ℚ) : Option ℚ :=
  match hours with
  | some h => if h ≠ 0 ∧ 0 < h then some (price / h) else none
  | none => none

/-- `buildSmartBand` (src/unnamed/part_001 lines 155-234): the deterministic
    core band engine.  `priceRaw = none` models a missing or non-numeric
    price (`Number(priceRaw)` is `NaN`, so `Number(priceRaw) || 0` is 0). -/
def buildSmartBand (priceRaw : Option ℚ) (description : String) (scopeType : String) : Band01 :=
  let price := priceRaw.getD 0
  let desc := jsTrim description
  let scope := if scopeType = "" then "snapshot" else scopeType
  if price ≤ 0 then
    { price := 0, scopeType := scope, description := desc, aiLow := 0, aiHigh := 0,
      upsellPotential := 0, notes := noteZero, hourly := none }
  else
    let aiLow₀ := jsRoundQ (price * 0.75)
    let aiHigh₀ := jsRoundQ (price * 1.25)
    let aiLow₁ := if aiLow₀ < jsRoundQ (price * 0.5) then jsRoundQ (price * 0.5) else aiLow₀
    let aiHigh₁ := if aiHigh₀ > jsRoundQ (price * 1.6) then jsRoundQ (price * 1.6) else aiHigh₀
    let hours := getApproxHours desc
    let hourly : Option ℚ := impliedHourly price hours
    -- Case 1: tiny / very short job with crazy price
    let case1 : Prop := (looksLikeTinyJob desc = true ∨ hourTiny hours) ∧ 400 ≤ price
    let aiLow₂ := if case1 then jsRoundQ (price * 0.8) else aiLow₁
    let aiHigh₂ := if case1 then jsRoundQ (price * 1.0) else aiHigh₁
    let up₂ : ℚ := if case1 then 0 else 15
    let notes₂ := if case1 then noteTiny else noteBase
    -- Case 2: explicit hourly insanity
    let aiLow₃ := if hourlyHigh hourly then jsRoundQ (price * 0.6) else aiLow₂
    let aiHigh₃ :=
      if hourlyHigh hourly then
        (if jsRoundQ (price * 0.9) < jsRoundQ (price * 0.6) then jsRoundQ (price * 0.6)
         else jsRoundQ (price * 0.9))
      else aiHigh₂
    let up₃ : ℚ := if hourlyHigh hourly then 0 else up₂
    let notes₃ := if hourlyHigh hourly then noteHourly else notes₂
    -- Case 3: generic large ticket
    let case3 : Prop := 2000 ≤ price ∧ hourlyModest hourly
    let up₄ : ℚ := if case3 then 0 else up₃
    let notes₄ :=
      if case3 then
        (if notes₃ = "" ∨ strStartsWith notes₃ workableStart = true then noteLargeTicket else notes₃)
      else notes₃
    -- Global caps
    let up₅ := if 40 < up₄ then 40 else up₄
    let up₆ := if up₅ < 0 then 0 else up₅
    { price := price, scopeType := scope, description := desc, aiLow := aiLow₃,
      aiHigh := aiHigh₃, upsellPotential := up₆, notes := notes₄, hourly := hourly }

/-- The note-refinement step of the part_001 upload handler (lines 271-314):
    `aiText = none` models a failed or unavailable text-generation call. -/
def refineNotes (job : Band01) (aiText : Option String) : Band01 :=
  match aiText with
  | none => job
  | some t => if jsTrim t = "" then job else { job with notes := jsTrim t }

/-- The part_001 upload pipeline: deterministic band, then optional note
    refinement by the text-generation collaborator. -/
def uploadV1 (priceRaw : Option ℚ) (description scopeType : String) (aiText : Option String) :
    Band01 :=
  refineNotes (buildSmartBand priceRaw description scopeType) aiText

/-- Band/upsell/notes reply of the model call in src/routes/jobs.js lines
    104-156.  `none` fields model values whose `Number(...)` is `NaN`; the
    whole reply is `none` when the client is absent or the call throws. -/
structure ModelReply where
  aiLow : Option ℚ
  aiHigh : Option ℚ
  upsellPotential : Option ℚ
  notes : String
deriving DecidableEq, Repr

/-- The fields of a stored job record that the history tuner reads
    (src/routes/jobs.js lines 180-212). -/
structure HistEntry where
  scopeType : String
  price : ℚ
  aiLow : ℚ
  aiHigh : ℚ
deriving DecidableEq, Repr

/-- Band state threaded through the route pipeline. -/
structure BandState where
  aiLow : ℚ
  aiHigh : ℚ
  upsellPotential : ℚ
  notes : String
deriving DecidableEq, Repr

/-- A persisted job entry as the route responds with it (id, file name and
    timestamps are outside the modelled data). -/
structure RouteJob where
  operatorId : String
  price : ℚ
  description : String
  scopeType : String
  aiLow : ℚ
  aiHigh : ℚ
  upsellPotential : ℚ
  notes : String
deriving DecidableEq, Repr

/-- Fallback band of src/routes/jobs.js lines 158-163. -/
def fallbackBand (p : ℚ) : ℚ × ℚ :=
  let spread := max 25 (jsRoundQ (p * 0.12))
  (max 1 (p - spread), p + spread)

/-- Step 2 of the route: keep the model band unless it is falsy or inverted
    (`!aiLow || !aiHigh || aiHigh <= aiLow`). -/
def step2Band (p : ℚ) (m : Option ModelReply) : ℚ × ℚ :=
  match m with
  | none => fallbackBand p
  | some mr =>
    match mr.aiLow, mr.aiHigh with
    | some l, some h => if l = 0 ∨ h = 0 ∨ h ≤ l then fallbackBand p else (l, h)
    | some _, none => fallbackBand p
    | none, some _ => fallbackBand p
    | none, none => fallbackBand p

def modelUpsell : Option ModelReply → Option ℚ
  | some mr => mr.upsellPotential
  | none => none

/-- Truthiness of `!upsellPotential || upsellPotential < 0 || upsellPotential > 100`. -/
def upsellInvalid : Option ℚ → Prop
  | some v => v = 0 ∨ v < 0 ∨ 100 < v
  | none => True

instance (o : Option ℚ) : Decidable (upsellInvalid o) :=
  match o with
  | some v => inferInstanceAs (Decidable (v = 0 ∨ v < 0 ∨ 100 < v))
  | none => inferInstanceAs (Decidable True)

/-- Upsell after the fallback of src/routes/jobs.js lines 165-172. -/
def step2Upsell (p : ℚ) (m : Option ModelReply) : ℚ :=
  if upsellInvalid (modelUpsell m) then
    let headroom := max 0 ((step2Band p m).2 - p)
    let pct := if 0 < p then jsRoundQ (headroom / p * 100) else 0
    max 5 (min 40 (if pct = 0 then 15 else pct))
  else (modelUpsell m).getD 0

def noteRouteDefault : String :=
  "Based on your description, this sits in a fair band for your effort. Lead with outcome and reliability, not discounts."

/-- Notes after the fallback of src/routes/jobs.js lines 151-152 and 174-177. -/
def step2Notes (m : Option ModelReply) : String :=
  match m with
  | none => noteRouteDefault
  | some mr => if jsTrim mr.notes = "" then noteRouteDefault else jsTrim mr.notes

def insertQ (x : ℚ) : List ℚ → List ℚ
  | [] => [x]
  | y :: ys => if x ≤ y then x :: y :: ys else y :: insertQ x ys

/-- Ascending sort, as `sort((a, b) => a - b)` on numbers. -/
def sortQ : List ℚ → List ℚ
  | [] => []
  | x :: xs => insertQ x (sortQ xs)

/-- Median as the route computes it: middle element for odd length, mean of
    the two middle elements for even length. -/
def medianOf (l : List ℚ) : ℚ :=
  let sorted := sortQ l
  let mid := sorted.length / 2
  if sorted.length % 2 = 1 then sorted.getD mid 0
  else (sorted.getD (mid - 1) 0 + sorted.getD mid 0) / 2

/-- Relative width of a history entry, or `none` for entries the route maps
    to `null` (falsy price/aiLow/aiHigh, or non-positive width). -/
def relWidthOf (j : HistEntry) : Option ℚ :=
  if j.price = 0 ∨ j.aiLow = 0 ∨ j.aiHigh = 0 then none
  else if j.aiHigh - j.aiLow ≤ 0 then none
  else some ((j.aiHigh - j.aiLow) / j.price)

/-- The surviving relative spreads: `.map(...)` to widths-or-null then
    `.filter(v => v && v > 0 && v < 1.5)`. -/
def survivingSpreads (scope : String) (hist : List HistEntry) : List ℚ :=
  ((hist.filter fun j => j.scopeType == scope).filterMap relWidthOf).filter
    fun v => decide (0 < v ∧ v < 1.5)

/-- History tuning (src/routes/jobs.js lines 179-212). -/
def tuneStep (p : ℚ) (scope : String) (hist : List HistEntry) (band : ℚ × ℚ) : ℚ × ℚ :=
  let similar := hist.filter fun j => j.scopeType == scope
  if 5 ≤ similar.length then
    let spreads := survivingSpreads scope hist
    if 3 ≤ spreads.length then
      let width := max 0.15 (min 0.45 (medianOf spreads))
      let tunedLow := jsRoundQ (p * (1 - width / 2))
      let tunedHigh := jsRoundQ (p * (1 + width / 2))
      if 0 < tunedLow ∧ tunedLow < tunedHigh then (tunedLow, tunedHigh) else band
    else band
  else band

def noteTopEnd : String :=
  "You\x27re already sitting at the top end for this kind of job. No upsell suggested—just make sure your delivery matches the ticket."

def noteRoomToMove : String :=
  "You\x27re running this lean for the effort you described. You\x27ve got real room to bring this up with a clear scope and value story."

/-- Stress-test shield (src/routes/jobs.js lines 214-236). -/
def shieldStep (p : ℚ) (s : BandState) : BandState :=
  if 1.35 ≤ p / s.aiHigh then
    { aiLow := jsRoundQ (p * 0.9), aiHigh := jsRoundQ (p * 1.05),
      upsellPotential := 0, notes := noteTopEnd }
  else if p / s.aiLow ≤ 0.65 then
    let headroom := max 0 (s.aiHigh - p)
    let pct := if 0 < p then jsRoundQ (headroom / p * 100) else 30
    { aiLow := s.aiLow, aiHigh := s.aiHigh,
      upsellPotential := max 25 (min 60 (if pct = 0 then 30 else pct)), notes := noteRoomToMove }
  else s

/-- `scopeType === "walkaround" ? "walkaround" : "snapshot"`. -/
def safeScope (s : String) : String := if s = "walkaround" then "walkaround" else "snapshot"

/-- The route state after the model/fallback step and history tuning, right
    before the stress-test shield runs. -/
def preShield (p : ℚ) (scope : String) (m : Option ModelReply) (hist : List HistEntry) :
    BandState :=
  let band := tuneStep p scope hist (step2Band p m)
  { aiLow := band.1, aiHigh := band.2,
    upsellPotential := step2Upsell p m, notes := step2Notes m }

/-- The full recommendation computation of the upload route of
    src/routes/jobs.js, applied to a validated positive price. -/
def computeJob (p : ℚ) (description scopeType operatorId : String) (m : Option ModelReply)
    (hist : List HistEntry) : RouteJob :=
  let scope := safeScope scopeType
  let st := shieldStep p (preShield p scope m hist)
  { operatorId := operatorId, price := p, description := jsTrim description,
    scopeType := scope, aiLow := st.aiLow, aiHigh := st.aiHigh,
    upsellPotential := st.upsellPotential, notes := st.notes }

/-- The upload route with its input validation: missing/NaN or non-positive
    prices and empty descriptions are rejected with a 400 error (`none`). -/
def uploadHandler (priceRaw : Option ℚ) (description scopeType operatorId : String)
    (m : Option ModelReply) (hist : List HistEntry) : Option RouteJob :=
  if description = "" then none
  else
    match priceRaw with
    | none => none
    | some p =>
      if p ≤ 0 then none
      else some (computeJob p description scopeType operatorId m hist)

/-- The under-band branch of the stress shield fired: the upper branch did
    not, and the price sits at or below 0.65 of the pre-shield floor. -/
def underBandFired (p : ℚ) (scope : String) (m : Option ModelReply)
    (hist : List HistEntry) : Prop :=
  ¬ 1.35 ≤ p / (preShield p (safeScope scope) m hist).aiHigh ∧
  p / (preShield p (safeScope scope) m hist).aiLow ≤ 0.65

/-- The surviving relative widths as claim C6 words them: the relative
    widths `(aiHigh - aiLow) / price` of the same-scope entries, keeping the
    positive ones below 1.5.  (The route additionally discards entries whose
    price, aiLow or aiHigh is falsy; see `relWidthOf`.) -/
def specRelWidths (scope : String) (hist : List HistEntry) : List ℚ :=
  ((hist.filter fun j => j.scopeType == scope).map fun j =>
    (j.aiHigh - j.aiLow) / j.price).filter fun v => decide (0 < v ∧ v < 1.5)

/-- Five stored snapshot entries with `aiLow = 0` and a positive width. -/
def c6Hist : List HistEntry := List.replicate 5 ⟨"snapshot", 100, 0, 50⟩

theorem ratFloor_eq_intFloor (q : ℚ) : (Rat.floor q : ℤ) = ⌊q⌋ := by
  apply le_antisymm
  · exact Int.le_floor.mpr (Rat.le_floor.mp le_rfl)
  · exact Rat.le_floor.mpr (Int.floor_le q)

/-- Evaluation rule for `jsRoundQ` at concrete rationals. -/
theorem jsRoundQ_eq (x : ℚ) (z : ℤ) (h1 : (z : ℚ) ≤ x + 1/2) (h2 : x + 1/2 < (z : ℚ) + 1) :
    jsRoundQ x = (z : ℚ) := by
  unfold jsRoundQ
  rw [ratFloor_eq_intFloor]
  norm_cast
  rw [Int.floor_eq_iff]
  constructor
  · exact_mod_cast h1
  · exact_mod_cast h2

/-- `jsRoundQ` is monotone. -/
theorem jsRoundQ_mono {a b : ℚ} (h : a ≤ b) : jsRoundQ a ≤ jsRoundQ b := by
  unfold jsRoundQ
  rw [ratFloor_eq_intFloor, ratFloor_eq_intFloor]
  exact_mod_cast Int.floor_mono (by linarith)

/-- `jsRoundQ x` is at least 1 once `x ≥ 1/2`. -/
theorem one_le_jsRoundQ {x : ℚ} (h : 1/2 ≤ x) : 1 ≤ jsRoundQ x := by
  unfold jsRoundQ
  rw [ratFloor_eq_intFloor]
  have : (1 : ℤ) ≤ ⌊x + 1/2⌋ := Int.le_floor.mpr (by push_cast; linarith)
  exact_mod_cast this

/-- A positive `jsRoundQ` value is at least 1 (it is an integer). -/
theorem one_le_jsRoundQ_of_pos {x : ℚ} (h : 0 < jsRoundQ x) : 1 ≤ jsRoundQ x := by
  unfold jsRoundQ at *
  have h' : (0 : ℤ) < Rat.floor (x + 1/2) := by exact_mod_cast h
  have : (1 : ℤ) ≤ Rat.floor (x + 1/2) := by omega
  exact_mod_cast this

theorem fallbackBand_one_le (p : ℚ) : 1 ≤ (fallbackBand p).1 := le_max_left 1 _

theorem fallbackBand_lt (p : ℚ) (hp : 0 < p) : (fallbackBand p).1 < (fallbackBand p).2 := by
  have hs : (25 : ℚ) ≤ max 25 (jsRoundQ (p * 0.12)) := le_max_left _ _
  simp only [fallbackBand]
  apply max_lt
  · linarith
  · linarith

theorem tuneStep_inv (p : ℚ) (scope : String) (hist : List HistEntry) (band : ℚ × ℚ)
    (h1 : 1 ≤ band.1) (h2 : band.1 < band.2) :
    1 ≤ (tuneStep p scope hist band).1 ∧
      (tuneStep p scope hist band).1 < (tuneStep p scope hist band).2 := by
  simp only [tuneStep]
  split_ifs with hc1 hc2 hc3
  · exact ⟨one_le_jsRoundQ_of_pos hc3.1, hc3.2⟩
  · exact ⟨h1, h2⟩
  · exact ⟨h1, h2⟩
  · exact ⟨h1, h2⟩

theorem step2Upsell_bounds (p : ℚ) (m : Option ModelReply)
    (h : upsellInvalid (modelUpsell m)) :
    5 ≤ step2Upsell p m ∧ step2Upsell p m ≤ 40 := by
  simp only [step2Upsell, if_pos h]
  constructor
  · exact le_max_left _ _
  · exact max_le (by norm_num) (min_le_left _ _)

theorem step2Upsell_pos (p : ℚ) (m : Option ModelReply) : 0 < step2Upsell p m := by
  by_cases h : upsellInvalid (modelUpsell m)
  · have hb := step2Upsell_bounds p m h
    linarith [hb.1]
  · rw [step2Upsell, if_neg h]
    rcases m with _ | mr
    · refine absurd ?_ h
      simp [modelUpsell, upsellInvalid]
    · rcases hmv : mr.upsellPotential with _ | v
      · refine absurd ?_ h
        simp [modelUpsell, upsellInvalid, hmv]
      · have hv : ¬(v = 0 ∨ v < 0 ∨ 100 < v) := by
          simpa [upsellInvalid, modelUpsell, hmv] using h
        push_neg at hv
        have hvpos : 0 < v := lt_of_le_of_ne hv.2.1 (Ne.symm hv.1)
        simpa [modelUpsell, hmv] using hvpos

theorem preShield_inv (p : ℚ) (scope : String) (hist : List HistEntry) (hp : 0 < p) :
    1 ≤ (preShield p scope none hist).aiLow ∧
      (preShield p scope none hist).aiLow < (preShield p scope none hist).aiHigh ∧
      5 ≤ (preShield p scope none hist).upsellPotential ∧
      (preShield p scope none hist).upsellPotential ≤ 40 := by
  have hband := tuneStep_inv p scope hist (step2Band p none)
    (fallbackBand_one_le p) (fallbackBand_lt p hp)
  have hup := step2Upsell_bounds p none trivial
  exact ⟨hband.1, hband.2, hup.1, hup.2⟩

/-- Claim C7 (confirmed): a missing, non-numeric, or non-positive price makes
    the engine return the zero-band variant (price, aiLow, aiHigh and
    upsellPotential all 0) with a non-empty explanatory note, and a positive
    price is reproduced in the result, so callers can distinguish the
    variant by `price == 0`. -/
theorem c7_invalid_price_zero_band (pr : Option ℚ) (desc scope : String)
    (h : pr = none ∨ pr.getD 0 ≤ 0) :
    (buildSmartBand pr desc scope).price = 0 ∧
    (buildSmartBand pr desc scope).aiLow = 0 ∧
    (buildSmartBand pr desc scope).aiHigh = 0 ∧
    (buildSmartBand pr desc scope).upsellPotential = 0 ∧
    (buildSmartBand pr desc scope).notes = noteZero ∧
    noteZero ≠ "" ∧
    (∀ q : ℚ, 0 < q → (buildSmartBand (some q) desc scope).price = q) := by
  have hp : pr.getD 0 ≤ 0 := by
    rcases h with h | h
    · subst h; simp
    · exact h
  refine ⟨?_, ?_, ?_, ?_, ?_, by decide, ?_⟩
  · simp only [buildSmartBand, if_pos hp]
  · simp only [buildSmartBand, if_pos hp]
  · simp only [buildSmartBand, if_pos hp]
  · simp only [buildSmartBand, if_pos hp]
  · simp only [buildSmartBand, if_pos hp]
  · intro q hq
    simp only [buildSmartBand, Option.getD_some, if_neg (not_le.mpr hq)]

/-- Claim C7 witness: the zero-band variant at a concretely missing price. -/
theorem c7_witness :
    ((none : Option ℚ) = none ∨ (none : Option ℚ).getD 0 ≤ 0) ∧
    (buildSmartBand none "some job" "snapshot").price = 0 ∧
    (buildSmartBand none "some job" "snapshot").aiLow = 0 := by
  have h := c7_invalid_price_zero_band none "some job" "snapshot" (Or.inl rfl)
  exact ⟨Or.inl rfl, h.1, h.2.1⟩

/-- Claim C8 (confirmed): the note-refinement step never changes the numeric
    fields of the result, and when the generated text is empty or the call
    failed, the deterministic note is kept verbatim. -/
theorem c8_refine_notes_frame (pr : Option ℚ) (desc scope : String) (aiText : Option String) :
    ((uploadV1 pr desc scope aiText).price = (buildSmartBand pr desc scope).price ∧
     (uploadV1 pr desc scope aiText).aiLow = (buildSmartBand pr desc scope).aiLow ∧
     (uploadV1 pr desc scope aiText).aiHigh = (buildSmartBand pr desc scope).aiHigh ∧
     (uploadV1 pr desc scope aiText).upsellPotential =
       (buildSmartBand pr desc scope).upsellPotential ∧
     (uploadV1 pr desc scope aiText).scopeType = (buildSmartBand pr desc scope).scopeType ∧
     (uploadV1 pr desc scope aiText).hourly = (buildSmartBand pr desc scope).hourly) ∧
    (aiText = none → (uploadV1 pr desc scope aiText).notes = (buildSmartBand pr desc scope).notes) ∧
    (∀ t, aiText = some t → jsTrim t = "" →
      (uploadV1 pr desc scope aiText).notes = (buildSmartBand pr desc scope).notes) := by
  refine ⟨?_, ?_, ?_⟩
  · rcases aiText with _ | t
    · exact ⟨rfl, rfl, rfl, rfl, rfl, rfl⟩
    · simp only [uploadV1, refineNotes]
      split_ifs <;> exact ⟨rfl, rfl, rfl, rfl, rfl, rfl⟩
  · rintro rfl
    rfl
  · rintro t rfl he
    simp only [uploadV1, refineNotes, if_pos he]

/-- Claim C8 witness: with the collaborator unavailable, the numeric fields
    and the deterministic note survive unchanged. -/
theorem c8_witness :
    (uploadV1 (some 100) "full detail" "snapshot" none).aiLow =
      (buildSmartBand (some 100) "full detail" "snapshot").aiLow ∧
    (uploadV1 (some 100) "full detail" "snapshot" none).notes =
      (buildSmartBand (some 100) "full detail" "snapshot").notes := by
  have h := c8_refine_notes_frame (some 100) "full detail" "snapshot" none
  exact ⟨h.1.2.1, h.2.1 rfl⟩

/-- Claim C9 counterexample: identical submission and identical (empty)
    corpus, but two different collaborator replies, produce different
    recommendation bands in the upload route of src/routes/jobs.js, so the
    route result is not a function of the pair (submission, corpus) alone. -/
theorem c9_counterexample :
    (computeJob 100 "paint job" "snapshot" "demo-operator" none []).aiLow ≠
      (computeJob 100 "paint job" "snapshot" "demo-operator"
        (some ⟨some 50, some 90, some 20, "n"⟩) []).aiLow := by
  with_unfolding_all decide

/-- Claim C9 (corrected): the route computation is a pure function of the
    submission, the corpus snapshot and the collaborator reply; with those
    fixed, the recommendation fields do not depend on anything else (in
    particular not on the operator identifier). -/
theorem c9_amended (p : ℚ) (desc scope oid₁ oid₂ : String) (m : Option ModelReply)
    (hist : List HistEntry) :
    (computeJob p desc scope oid₁ m hist).price = (computeJob p desc scope oid₂ m hist).price ∧
    (computeJob p desc scope oid₁ m hist).aiLow = (computeJob p desc scope oid₂ m hist).aiLow ∧
    (computeJob p desc scope oid₁ m hist).aiHigh = (computeJob p desc scope oid₂ m hist).aiHigh ∧
    (computeJob p desc scope oid₁ m hist).upsellPotential =
      (computeJob p desc scope oid₂ m hist).upsellPotential ∧
    (computeJob p desc scope oid₁ m hist).notes = (computeJob p desc scope oid₂ m hist).notes ∧
    (computeJob p desc scope oid₁ m hist).scopeType =
      (computeJob p desc scope oid₂ m hist).scopeType ∧
    (computeJob p desc scope oid₁ m hist).description =
      (computeJob p desc scope oid₂ m hist).description :=
  ⟨rfl, rfl, rfl, rfl, rfl, rfl, rfl⟩

/-- Claim C2 counterexample: a deterministic run of the upload route (no
    collaborator, empty corpus) at price 0.5 produces upsellPotential 60,
    violating the claimed unconditional [0, 40] cap. -/
theorem c2_counterexample :
    (computeJob (1/2) "x" "snapshot" "demo-operator" none []).upsellPotential = 60 ∧
    ¬ (computeJob (1/2) "x" "snapshot" "demo-operator" none []).upsellPotential ≤ 40 := by
  with_unfolding_all decide

theorem bsb_upsell_bounds (pr : Option ℚ) (desc scope : String) :
    0 ≤ (buildSmartBand pr desc scope).upsellPotential ∧
    (buildSmartBand pr desc scope).upsellPotential ≤ 40 := by
  simp only [buildSmartBand]
  split_ifs <;> norm_num

/-- Claim C2 (corrected): the hard [0, 40] upsell cap holds unconditionally
    for `buildSmartBand`; in the upload route of src/routes/jobs.js the
    under-band stress-shield branch instead allows values up to 60. -/
theorem c2_amended (pr : Option ℚ) (desc scope : String) :
    0 ≤ (buildSmartBand pr desc scope).upsellPotential ∧
    (buildSmartBand pr desc scope).upsellPotential ≤ 40 :=
  bsb_upsell_bounds pr desc scope

/-- Claim C3 counterexample: with a collaborator band of (-200, 90) at price
    100 (kept by the route, since 90 > -200 and both are truthy), the
    under-band branch fires with zero headroom; the code produces
    upsellPotential 30 (`pct || 30`), while the claimed formula
    `clamp(round(max(0, high - price)/price*100), 25, 60)` gives 25. -/
theorem c3_counterexample :
    (computeJob 100 "x" "snapshot" "demo-operator"
        (some ⟨some (-200), some 90, some 50, "n"⟩) []).upsellPotential = 30 ∧
    max 25 (min 60 (jsRoundQ (max 0
        ((preShield 100 (safeScope "snapshot")
            (some ⟨some (-200), some 90, some 50, "n"⟩) []).aiHigh - 100) / 100 * 100))) = 25 ∧
    (30 : ℚ) ≠ 25 := by
  with_unfolding_all decide

/-- Claim C3 (corrected): the stress shield overrides to
    (round(price*0.9), round(price*1.05), 0) when price/high ≥ 1.35; only
    otherwise, when price/low ≤ 0.65, it keeps the band and sets
    upsellPotential to max(25, min(60, pct)) with pct replaced by 30 when it
    rounds to 0; otherwise it changes nothing; and the route runs it on the
    state produced by band synthesis followed by history tuning. -/
theorem c3_shield_behaviour (p : ℚ) (st : BandState) (hp : 0 < p) :
    (1.35 ≤ p / st.aiHigh →
      shieldStep p st =
        ⟨jsRoundQ (p * 0.9), jsRoundQ (p * 1.05), 0, noteTopEnd⟩) ∧
    (¬ 1.35 ≤ p / st.aiHigh → p / st.aiLow ≤ 0.65 →
      shieldStep p st =
        ⟨st.aiLow, st.aiHigh,
          max 25 (min 60
            (if jsRoundQ (max 0 (st.aiHigh - p) / p * 100) = 0 then 30
             else jsRoundQ (max 0 (st.aiHigh - p) / p * 100))), noteRoomToMove⟩) ∧
    (¬ 1.35 ≤ p / st.aiHigh → ¬ p / st.aiLow ≤ 0.65 → shieldStep p st = st) ∧
    (∀ (desc scope oid : String) (m : Option ModelReply) (hist : List HistEntry),
      computeJob p desc scope oid m hist =
        { operatorId := oid, price := p, description := jsTrim desc,
          scopeType := safeScope scope,
          aiLow := (shieldStep p (preShield p (safeScope scope) m hist)).aiLow,
          aiHigh := (shieldStep p (preShield p (safeScope scope) m hist)).aiHigh,
          upsellPotential :=
            (shieldStep p (preShield p (safeScope scope) m hist)).upsellPotential,
          notes := (shieldStep p (preShield p (safeScope scope) m hist)).notes }) := by
  refine ⟨?_, ?_, ?_, fun desc scope oid m hist => rfl⟩
  · intro h
    simp only [shieldStep, if_pos h]
  · intro h1 h2
    simp only [shieldStep, if_neg h1, if_pos h2, if_pos hp]
  · intro h1 h2
    simp only [shieldStep, if_neg h1, if_neg h2]

/-- Claim C3 witness: at price 100 with band (75, 125) neither shield branch
    fires and the state is returned unchanged. -/
theorem c3_witness :
    (0 : ℚ) < 100 ∧
    shieldStep 100 ⟨75, 125, 15, "n"⟩ = ⟨75, 125, 15, "n"⟩ :=
  ⟨by norm_num,
    (c3_shield_behaviour 100 ⟨75, 125, 15, "n"⟩ (by norm_num)).2.2.1
      (by norm_num) (by norm_num)⟩

/-- Claim C5 (confirmed): when a duration is parsed and the implied hourly
    rate price/approxHours exceeds 1000, `buildSmartBand` overrides the band
    to (round(price*0.6), round(price*0.9)) with the inversion guard and
    upsellPotential 0; in particular (price 30000, "1 hour detail") yields
    (18000, 27000, 0). -/
theorem c5_implied_hourly_rule (p h : ℚ) (desc scope : String)
    (hp : 0 < p) (hg : getApproxHours (jsTrim desc) = some h) (hh : 0 < h)
    (hr : 1000 < p / h) :
    ((buildSmartBand (some p) desc scope).aiLow = jsRoundQ (p * 0.6) ∧
     (buildSmartBand (some p) desc scope).aiHigh =
       (if jsRoundQ (p * 0.9) < jsRoundQ (p * 0.6) then jsRoundQ (p * 0.6)
        else jsRoundQ (p * 0.9)) ∧
     (buildSmartBand (some p) desc scope).upsellPotential = 0) ∧
    ((buildSmartBand (some 30000) "1 hour detail" "snapshot").aiLow = 18000 ∧
     (buildSmartBand (some 30000) "1 hour detail" "snapshot").aiHigh = 27000 ∧
     (buildSmartBand (some 30000) "1 hour detail" "snapshot").upsellPotential = 0) := by
  constructor
  · have hph : 0 < p / h := lt_trans (by norm_num) hr
    have hhour : impliedHourly p (getApproxHours (jsTrim desc)) = some (p / h) := by
      simp [impliedHourly, hg, hh, ne_of_gt hh]
    have hcond : hourlyHigh (some (p / h)) := ⟨ne_of_gt hph, hr⟩
    have hmod : ¬ hourlyModest (some (p / h)) := by
      simp only [hourlyModest]
      push_neg
      exact ⟨ne_of_gt hph, hr⟩
    have hp0 : ¬ p ≤ 0 := not_le.mpr hp
    simp only [buildSmartBand, Option.getD_some, if_neg hp0, hhour]
    refine ⟨?_, ?_, ?_⟩
    · simp [hcond]
    · simp [hcond]
    · simp [hcond, hmod]
  · have htrim : jsTrim "1 hour detail" = "1 hour detail" := by decide
    have hg' : getApproxHours "1 hour detail" = some 1 := by decide
    have ht : looksLikeTinyJob "1 hour detail" = false := by decide
    have r1 : jsRoundQ (18000 : ℚ) = 18000 := jsRoundQ_eq _ 18000 (by norm_num) (by norm_num)
    have r2 : jsRoundQ (27000 : ℚ) = 27000 := jsRoundQ_eq _ 27000 (by norm_num) (by norm_num)
    simp only [buildSmartBand, htrim, hg', ht, Option.getD_some]
    norm_num [hourTiny, hourlyHigh, hourlyModest, impliedHourly, r1, r2]

/-- Claim C5 witness: the hourly blow-up example satisfies the rule's
    trigger and receives the overridden band. -/
theorem c5_witness :
    (0 : ℚ) < 30000 ∧ getApproxHours (jsTrim "1 hour detail") = some 1 ∧
    (0 : ℚ) < 1 ∧ (1000 : ℚ) < 30000 / 1 ∧
    (buildSmartBand (some 30000) "1 hour detail" "snapshot").aiLow =
      jsRoundQ (30000 * 0.6) :=
  ⟨by norm_num, by decide, by norm_num, by norm_num,
    (c5_implied_hourly_rule 30000 1 "1 hour detail" "snapshot" (by norm_num) (by decide)
      (by norm_num) (by norm_num)).1.1⟩

/-- Claim C4 counterexample: the spec's own tiny-job example
    (price 500, "1 min paint touch up") parses a 1-minute duration, so the
    implied-hourly rule (30000/hr > 1000) overrides the tiny-job band: the
    result is (300, 450, 0), not the claimed (400, 500, 0). -/
theorem c4_counterexample :
    (buildSmartBand (some 500) "1 min paint touch up" "snapshot").aiLow = 300 ∧
    (buildSmartBand (some 500) "1 min paint touch up" "snapshot").aiHigh = 450 ∧
    (buildSmartBand (some 500) "1 min paint touch up" "snapshot").upsellPotential = 0 ∧
    (buildSmartBand (some 500) "1 min paint touch up" "snapshot").aiLow ≠ 400 ∧
    (buildSmartBand (some 500) "1 min paint touch up" "snapshot").aiHigh ≠ 500 := by
  have key : (buildSmartBand (some 500) "1 min paint touch up" "snapshot").aiLow = 300 ∧
      (buildSmartBand (some 500) "1 min paint touch up" "snapshot").aiHigh = 450 ∧
      (buildSmartBand (some 500) "1 min paint touch up" "snapshot").upsellPotential = 0 := by
    have htrim : jsTrim "1 min paint touch up" = "1 min paint touch up" := by decide
    have hg : getApproxHours "1 min paint touch up" = some (1/60) := by
      with_unfolding_all decide
    have ht : looksLikeTinyJob "1 min paint touch up" = true := by decide
    have r1 : jsRoundQ (300 : ℚ) = 300 := jsRoundQ_eq _ 300 (by norm_num) (by norm_num)
    have r2 : jsRoundQ (450 : ℚ) = 450 := jsRoundQ_eq _ 450 (by norm_num) (by norm_num)
    simp only [buildSmartBand, htrim, hg, ht, Option.getD_some]
    norm_num [hourTiny, hourlyHigh, hourlyModest, impliedHourly, r1, r2]
  refine ⟨key.1, key.2.1, key.2.2, ?_, ?_⟩
  · rw [key.1]; norm_num
  · rw [key.2.1]; norm_num

/-- Claim C4 (corrected): the tiny-job rule sets the band to
    (round(price*0.8), round(price*1.0)) with upsellPotential 0 when its
    trigger holds and the implied-hourly rule does not also fire; when both
    fire (as in the spec's example) the hourly rule's band wins. -/
theorem c4_tiny_job_rule (p : ℚ) (desc scope : String)
    (h1 : looksLikeTinyJob (jsTrim desc) = true ∨ hourTiny (getApproxHours (jsTrim desc)))
    (h2 : 400 ≤ p)
    (h3 : ¬ hourlyHigh (impliedHourly p (getApproxHours (jsTrim desc)))) :
    (buildSmartBand (some p) desc scope).aiLow = jsRoundQ (p * 0.8) ∧
    (buildSmartBand (some p) desc scope).aiHigh = jsRoundQ (p * 1.0) ∧
    (buildSmartBand (some p) desc scope).upsellPotential = 0 := by
  have hp0 : ¬ p ≤ 0 := not_le.mpr (lt_of_lt_of_le (by norm_num) h2)
  have hcase1 : (looksLikeTinyJob (jsTrim desc) = true ∨
      hourTiny (getApproxHours (jsTrim desc))) ∧ 400 ≤ p := ⟨h1, h2⟩
  simp only [buildSmartBand, Option.getD_some, if_neg hp0]
  refine ⟨?_, ?_, ?_⟩
  · simp [hcase1, h3]
  · simp [hcase1, h3]
  · simp [hcase1, h3, ite_self]

/-- Claim C4 witness: a tiny-job description with no parseable duration at
    price 500 receives the (400, 500, 0) override. -/
theorem c4_witness :
    (looksLikeTinyJob (jsTrim "quick touch repaint") = true ∨
      hourTiny (getApproxHours (jsTrim "quick touch repaint"))) ∧
    (400 : ℚ) ≤ 500 ∧
    ¬ hourlyHigh (impliedHourly 500 (getApproxHours (jsTrim "quick touch repaint"))) ∧
    (buildSmartBand (some 500) "quick touch repaint" "snapshot").aiLow =
      jsRoundQ (500 * 0.8) ∧
    (buildSmartBand (some 500) "quick touch repaint" "snapshot").aiHigh =
      jsRoundQ (500 * 1.0) ∧
    (buildSmartBand (some 500) "quick touch repaint" "snapshot").upsellPotential = 0 := by
  have h1 : looksLikeTinyJob (jsTrim "quick touch repaint") = true ∨
      hourTiny (getApproxHours (jsTrim "quick touch repaint")) := Or.inl (by decide)
  have h3 : ¬ hourlyHigh (impliedHourly 500 (getApproxHours (jsTrim "quick touch repaint"))) := by
    decide
  have hmain := c4_tiny_job_rule 500 "quick touch repaint" "snapshot" h1 (by norm_num) h3
  exact ⟨h1, by norm_num, h3, hmain.1, hmain.2.1, hmain.2.2⟩

theorem max25_min60_pos (x : ℚ) : 0 < max 25 (min 60 x) :=
  lt_of_lt_of_le (by norm_num) (le_max_left _ _)

/-- Claim C10 (confirmed): in the upload route a model upsell of 0 (or any
    value outside (0, 100]) is treated as missing and replaced by
    max(5, min(40, pct or 15)); a value in (0, 100] is kept; and the final
    upsellPotential is 0 exactly when the stress-shield upper branch
    (price / pre-shield aiHigh ≥ 1.35) fires. -/
theorem c10_upsell_zero_iff (p : ℚ) (desc scope oid : String) (m : Option ModelReply)
    (hist : List HistEntry) (hp : 0 < p) :
    (upsellInvalid (modelUpsell m) →
      step2Upsell p m =
        max 5 (min 40
          (if jsRoundQ (max 0 ((step2Band p m).2 - p) / p * 100) = 0 then 15
           else jsRoundQ (max 0 ((step2Band p m).2 - p) / p * 100)))) ∧
    (¬ upsellInvalid (modelUpsell m) →
      ∃ v, modelUpsell m = some v ∧ 0 < v ∧ v ≤ 100 ∧ step2Upsell p m = v) ∧
    ((computeJob p desc scope oid m hist).upsellPotential = 0 ↔
      1.35 ≤ p / (preShield p (safeScope scope) m hist).aiHigh) := by
  refine ⟨?_, ?_, ?_⟩
  · intro h
    simp only [step2Upsell, if_pos h, if_pos hp]
  · intro h
    rcases m with _ | mr
    · exact absurd (by simp [modelUpsell, upsellInvalid]) h
    · rcases hmv : mr.upsellPotential with _ | v
      · exact absurd (by simp [modelUpsell, upsellInvalid, hmv]) h
      · have hv : ¬(v = 0 ∨ v < 0 ∨ 100 < v) := by
          simpa [upsellInvalid, modelUpsell, hmv] using h
        push_neg at hv
        refine ⟨v, by simp [modelUpsell, hmv], lt_of_le_of_ne hv.2.1 (Ne.symm hv.1),
          hv.2.2, ?_⟩
        rw [step2Upsell, if_neg h]
        simp [modelUpsell, hmv]
  · have hpos := step2Upsell_pos p m
    have hproj : (computeJob p desc scope oid m hist).upsellPotential =
        (shieldStep p (preShield p (safeScope scope) m hist)).upsellPotential := rfl
    rw [hproj]
    simp only [shieldStep]
    split_ifs with hhi hlo hpct
    · exact ⟨fun _ => hhi, fun _ => rfl⟩
    · exact ⟨fun h0 => absurd h0 (ne_of_gt (max25_min60_pos _)), fun hc => absurd hc hhi⟩
    · exact ⟨fun h0 => absurd h0 (ne_of_gt (max25_min60_pos _)), fun hc => absurd hc hhi⟩
    · have hs : (preShield p (safeScope scope) m hist).upsellPotential = step2Upsell p m := rfl
      rw [hs]
      exact ⟨fun h0 => absurd h0 (ne_of_gt hpos), fun hc => absurd hc hhi⟩

/-- Claim C10 witness: with no collaborator and an empty corpus at price
    1000, the upper branch does not fire and the upsell is non-zero. -/
theorem c10_witness :
    (0 : ℚ) < 1000 ∧
    ((computeJob 1000 "deck job" "snapshot" "demo-operator" none []).upsellPotential = 0 ↔
      1.35 ≤ 1000 / (preShield 1000 (safeScope "snapshot") none []).aiHigh) :=
  ⟨by norm_num,
    (c10_upsell_zero_iff 1000 "deck job" "snapshot" "demo-operator" none []
      (by norm_num)).2.2⟩

/-- Claim C6 counterexample: five stored snapshot entries with aiLow = 0,
    price = 100 and aiHigh = 50 all have relative width 0.5 ∈ (0, 1.5), so
    the claim's conditions hold (≥5 same-scope entries, ≥3 surviving
    positive non-outlier widths, median 0.5 clamps to 0.45, re-centered
    band (775, 1225) is valid), yet the route's tuner discards every entry
    through its falsy-field guard (`!j.aiLow`) and leaves the provisional
    band (880, 1120) unchanged. -/
theorem c6_counterexample :
    5 ≤ (c6Hist.filter fun j => j.scopeType == "snapshot").length ∧
    3 ≤ (specRelWidths "snapshot" c6Hist).length ∧
    medianOf (specRelWidths "snapshot" c6Hist) = 1/2 ∧
    jsRoundQ (1000 * (1 - max 0.15 (min 0.45 (medianOf (specRelWidths "snapshot" c6Hist))) / 2))
      = 775 ∧
    jsRoundQ (1000 * (1 + max 0.15 (min 0.45 (medianOf (specRelWidths "snapshot" c6Hist))) / 2))
      = 1225 ∧
    (0 : ℚ) < 775 ∧ (775 : ℚ) < 1225 ∧
    tuneStep 1000 "snapshot" c6Hist (880, 1120) = (880, 1120) := by
  with_unfolding_all decide

/-- Claim C6 (corrected): the tuner replaces the provisional band if and
    only if there are at least 5 same-scope entries, at least 3 surviving
    relative widths — where entries with a zero (falsy) price, aiLow or
    aiHigh, or a non-positive width, are discarded before widths outside
    (0, 1.5) are filtered out — and the band re-centered with the clamped
    median width has low > 0 and high > low; otherwise the band is kept. -/
theorem c6_history_tuning (p : ℚ) (scope : String) (hist : List HistEntry) (band : ℚ × ℚ) :
    tuneStep p scope hist band =
      if 5 ≤ (hist.filter fun j => j.scopeType == scope).length ∧
          3 ≤ (survivingSpreads scope hist).length ∧
          0 < jsRoundQ (p * (1 - max 0.15 (min 0.45 (medianOf (survivingSpreads scope hist))) / 2)) ∧
          jsRoundQ (p * (1 - max 0.15 (min 0.45 (medianOf (survivingSpreads scope hist))) / 2)) <
            jsRoundQ (p * (1 + max 0.15 (min 0.45 (medianOf (survivingSpreads scope hist))) / 2))
      then
        (jsRoundQ (p * (1 - max 0.15 (min 0.45 (medianOf (survivingSpreads scope hist))) / 2)),
         jsRoundQ (p * (1 + max 0.15 (min 0.45 (medianOf (survivingSpreads scope hist))) / 2)))
      else band := by
  simp only [tuneStep]
  split_ifs <;> first | rfl | tauto

set_option maxHeartbeats 1000000 in
theorem bsb_band_pos (p : ℚ) (desc scope : String) (hp : 1 ≤ p) :
    0 < (buildSmartBand (some p) desc scope).aiLow ∧
    (buildSmartBand (some p) desc scope).aiLow ≤ (buildSmartBand (some p) desc scope).aiHigh := by
  have hp0 : ¬ p ≤ 0 := by linarith
  by_cases hH : hourlyHigh (impliedHourly p (getApproxHours (jsTrim desc)))
  · simp only [buildSmartBand, Option.getD_some, if_neg hp0, if_pos hH]
    constructor
    · exact lt_of_lt_of_le one_pos (one_le_jsRoundQ (by linarith))
    · split_ifs
      · exact le_refl _
      · exact jsRoundQ_mono (by linarith)
  · by_cases hC : (looksLikeTinyJob (jsTrim desc) = true ∨
        hourTiny (getApproxHours (jsTrim desc))) ∧ 400 ≤ p
    · simp only [buildSmartBand, Option.getD_some, if_neg hp0, if_neg hH, if_pos hC]
      constructor
      · exact lt_of_lt_of_le one_pos (one_le_jsRoundQ (by linarith))
      · exact jsRoundQ_mono (by linarith)
    · simp only [buildSmartBand, Option.getD_some, if_neg hp0, if_neg hH, if_neg hC]
      split_ifs <;>
        refine ⟨?_, ?_⟩ <;>
        first
          | exact lt_of_lt_of_le one_pos (one_le_jsRoundQ (by linarith))
          | exact jsRoundQ_mono (by linarith)

theorem computeJob_no_model_inv (p : ℚ) (desc scope oid : String) (hist : List HistEntry)
    (hp : 1 ≤ p) :
    0 < (computeJob p desc scope oid none hist).aiLow ∧
    (computeJob p desc scope oid none hist).aiLow ≤
      (computeJob p desc scope oid none hist).aiHigh ∧
    0 ≤ (computeJob p desc scope oid none hist).upsellPotential ∧
    (computeJob p desc scope oid none hist).upsellPotential ≤ 60 ∧
    (¬ underBandFired p scope none hist →
      (computeJob p desc scope oid none hist).upsellPotential ≤ 40) := by
  have hp0 : 0 < p := lt_of_lt_of_le one_pos hp
  have hpre := preShield_inv p (safeScope scope) hist hp0
  have e1 : (computeJob p desc scope oid none hist).aiLow =
      (shieldStep p (preShield p (safeScope scope) none hist)).aiLow := rfl
  have e2 : (computeJob p desc scope oid none hist).aiHigh =
      (shieldStep p (preShield p (safeScope scope) none hist)).aiHigh := rfl
  have e3 : (computeJob p desc scope oid none hist).upsellPotential =
      (shieldStep p (preShield p (safeScope scope) none hist)).upsellPotential := rfl
  rw [e1, e2, e3]
  simp only [shieldStep]
  split_ifs with hhi hlo hpct
  · refine ⟨lt_of_lt_of_le one_pos (one_le_jsRoundQ (by linarith)), ?_, le_refl 0, by norm_num,
      fun _ => by norm_num⟩
    exact jsRoundQ_mono (by linarith)
  · refine ⟨lt_of_lt_of_le one_pos hpre.1, le_of_lt hpre.2.1, ?_, ?_, ?_⟩
    · exact le_of_lt (max25_min60_pos _)
    · exact max_le (by norm_num) (min_le_left _ _)
    · intro hnb
      exact absurd ⟨hhi, hlo⟩ hnb
  · refine ⟨lt_of_lt_of_le one_pos hpre.1, le_of_lt hpre.2.1, ?_, ?_, ?_⟩
    · exact le_of_lt (max25_min60_pos _)
    · exact max_le (by norm_num) (min_le_left _ _)
    · intro hnb
      exact absurd ⟨hhi, hlo⟩ hnb
  · refine ⟨lt_of_lt_of_le one_pos hpre.1, le_of_lt hpre.2.1, ?_, ?_, fun _ => hpre.2.2.2⟩
    · linarith [hpre.2.2.1]
    · linarith [hpre.2.2.2]

/-- Claim C1 counterexample: price 0.4 is positive, yet `buildSmartBand`
    returns aiLow = 0 (round(0.3) = 0), violating 0 < aiLow; and a
    collaborator upsell of 80 passes through the route untouched, violating
    the claimed [0, 60] range. -/
theorem c1_counterexample :
    (0 : ℚ) < 0.4 ∧
    (buildSmartBand (some 0.4) "" "snapshot").aiLow = 0 ∧
    (computeJob 100 "x" "snapshot" "demo-operator"
        (some ⟨some 80, some 120, some 80, "n"⟩) []).upsellPotential = 80 := by
  refine ⟨by norm_num, ?_, ?_⟩
  · have htrim : jsTrim "" = "" := by decide
    have hg : getApproxHours "" = none := by decide
    have ht : looksLikeTinyJob "" = false := by decide
    have r1 : jsRoundQ (3/10 : ℚ) = 0 := jsRoundQ_eq _ 0 (by norm_num) (by norm_num)
    have r3 : jsRoundQ (1/5 : ℚ) = 0 := jsRoundQ_eq _ 0 (by norm_num) (by norm_num)
    simp only [buildSmartBand, htrim, hg, ht, Option.getD_some]
    norm_num [hourTiny, hourlyHigh, hourlyModest, impliedHourly, r1, r3]
  · with_unfolding_all decide

/-- Claim C1 (corrected): for every submission with price ≥ 1, the engine
    band satisfies 0 < aiLow ≤ aiHigh with upsellPotential in [0, 40], and
    the route (with the collaborator absent) satisfies 0 < aiLow ≤ aiHigh
    with upsellPotential in [0, 60], exceeding 40 only when the under-band
    stress-shield branch fired. -/
theorem c1_invariants (p : ℚ) (desc scope oid : String) (hist : List HistEntry)
    (hp : 1 ≤ p) :
    (0 < (buildSmartBand (some p) desc scope).aiLow ∧
     (buildSmartBand (some p) desc scope).aiLow ≤ (buildSmartBand (some p) desc scope).aiHigh ∧
     0 ≤ (buildSmartBand (some p) desc scope).upsellPotential ∧
     (buildSmartBand (some p) desc scope).upsellPotential ≤ 40) ∧
    (0 < (computeJob p desc scope oid none hist).aiLow ∧
     (computeJob p desc scope oid none hist).aiLow ≤
       (computeJob p desc scope oid none hist).aiHigh ∧
     0 ≤ (computeJob p desc scope oid none hist).upsellPotential ∧
     (computeJob p desc scope oid none hist).upsellPotential ≤ 60 ∧
     (¬ underBandFired p scope none hist →
       (computeJob p desc scope oid none hist).upsellPotential ≤ 40)) := by
  have hb := bsb_band_pos p desc scope hp
  have hu := bsb_upsell_bounds (some p) desc scope
  have hr := computeJob_no_model_inv p desc scope oid hist hp
  exact ⟨⟨hb.1, hb.2, hu.1, hu.2⟩, hr⟩

/-- Claim C1 witness: the invariants at price 100 with an empty corpus. -/
theorem c1_witness :
    (1 : ℚ) ≤ 100 ∧
    ((0 < (buildSmartBand (some 100) "x" "snapshot").aiLow ∧
      (buildSmartBand (some 100) "x" "snapshot").aiLow ≤
        (buildSmartBand (some 100) "x" "snapshot").aiHigh ∧
      0 ≤ (buildSmartBand (some 100) "x" "snapshot").upsellPotential ∧
      (buildSmartBand (some 100) "x" "snapshot").upsellPotential ≤ 40) ∧
     (0 < (computeJob 100 "x" "snapshot" "demo-operator" none []).aiLow ∧
      (computeJob 100 "x" "snapshot" "demo-operator" none []).aiLow ≤
        (computeJob 100 "x" "snapshot" "demo-operator" none []).aiHigh ∧
      0 ≤ (computeJob 100 "x" "snapshot" "demo-operator" none []).upsellPotential ∧
      (computeJob 100 "x" "snapshot" "demo-operator" none []).upsellPotential ≤ 60 ∧
      (¬ underBandFired 100 "snapshot" none [] →
        (computeJob 100 "x" "snapshot" "demo-operator" none []).upsellPotential ≤ 40))) :=
  ⟨by norm_num, c1_invariants 100 "x" "snapshot" "demo-operator" [] (by norm_num)⟩

end WorkAI
